import Mathlib

/-!
Verification development for a CRM application (Supabase backend, React front
end).  The definitions below are shallow embeddings of the repository's data
model (`src/lib/supabase.ts` row types and the SQL migration defining the five
tables, their foreign keys and row-level-security policies) and of the pure
computations performed by the screens (`Dashboard.tsx`, `Deals`, `Tasks.tsx`,
`Activities`).  Timestamps that the code compares chronologically
(`new Date(x) < new Date()`) are modelled as integers (milliseconds since the
epoch); timestamps that are only stored and displayed are kept as strings.
-/

namespace CRM

/-! ## Row types (from the exported TS types in `src/lib/supabase.ts`
    and the SQL table definitions in the migration) -/

/-- `companies` row. -/
structure Company where
  id : String
  name : String
  industry : Option String
  website : Option String
  phone : Option String
  email : Option String
  address : Option String
  notes : Option String
  user_id : String
  created_at : String
  updated_at : String
deriving DecidableEq, Repr

/-- `contacts` row.  `company_id` is a nullable foreign key to `companies`
    declared `ON DELETE SET NULL`. -/
structure Contact where
  id : String
  first_name : String
  last_name : String
  email : Option String
  phone : Option String
  title : Option String
  company_id : Option String
  notes : Option String
  user_id : String
  created_at : String
  updated_at : String
deriving DecidableEq, Repr

/-- `deals` row.  `value` is SQL `numeric`, modelled as a rational;
    `probability` is SQL `integer`. -/
structure Deal where
  id : String
  title : String
  value : ℚ
  stage : String
  probability : Int
  expected_close_date : Option String
  company_id : Option String
  contact_id : Option String
  notes : Option String
  user_id : String
  created_at : String
  updated_at : String
deriving DecidableEq, Repr

/-- Task priority enum (`low | medium | high`). -/
inductive TaskPriority where
  | low
  | medium
  | high
deriving DecidableEq, Repr

/-- Task status enum (`pending | in_progress | completed`). -/
inductive TaskStatus where
  | pending
  | in_progress
  | completed
deriving DecidableEq, Repr

/-- `tasks` row (named `Task` in the source; renamed here to avoid the
    core `Task` type).  `due_date` is a nullable `timestamptz` that the code
    compares chronologically, modelled as an integer instant. -/
structure TaskRow where
  id : String
  title : String
  description : Option String
  due_date : Option Int
  priority : TaskPriority
  status : TaskStatus
  contact_id : Option String
  company_id : Option String
  deal_id : Option String
  user_id : String
  created_at : String
  updated_at : String
deriving DecidableEq, Repr

/-- Activity type enum (`call | email | meeting | note`). -/
inductive ActivityType where
  | call
  | email
  | meeting
  | note
deriving DecidableEq, Repr

/-- `activities` row.  There is no `updated_at` column: the table is an
    append-only log. -/
structure Activity where
  id : String
  type : ActivityType
  subject : String
  description : Option String
  activity_date : String
  contact_id : Option String
  company_id : Option String
  deal_id : Option String
  user_id : String
  created_at : String
deriving DecidableEq, Repr

/-! ## Row-level security (migration lines 259-374)

Every one of the five tables carries the same four policies:
`SELECT USING (auth.uid() = user_id)`,
`INSERT WITH CHECK (auth.uid() = user_id)`,
`UPDATE USING (auth.uid() = user_id) WITH CHECK (auth.uid() = user_id)`,
`DELETE USING (auth.uid() = user_id)`.
The operations are modelled generically over a row type `α` together with its
`user_id` and `id` projections, so that each of the five tables is an
instance. -/

section RLS

variable {α : Type}

/-- `SELECT` under RLS: only rows passing `USING (auth.uid() = user_id)` are
    visible; rows of other users are silently filtered out (no error). -/
def rlsSelect (userId : α → String) (uid : String) (t : List α) : List α :=
  t.filter (fun r => userId r == uid)

/-- `UPDATE ... WHERE id = rid` under RLS: only rows passing the `USING`
    clause and the `WHERE` clause are updated; the `WITH CHECK` clause must
    hold of every updated row or the statement errs (`none`).  Returns the new
    table together with the number of affected rows. -/
def rlsUpdateById (userId rowId : α → String) (uid rid : String) (f : α → α)
    (t : List α) : Option (List α × Nat) :=
  let touched := t.filter (fun r => rowId r == rid && userId r == uid)
  if touched.all (fun r => userId (f r) == uid) then
    some (t.map (fun r => if rowId r == rid && userId r == uid then f r else r),
      touched.length)
  else none

/-- `DELETE ... WHERE id = rid` under RLS: only rows passing
    `USING (auth.uid() = user_id)` and the `WHERE` clause are removed.
    Returns the new table together with the number of affected rows. -/
def rlsDeleteById (userId rowId : α → String) (uid rid : String)
    (t : List α) : List α × Nat :=
  (t.filter (fun r => !(rowId r == rid && userId r == uid)),
   (t.filter (fun r => rowId r == rid && userId r == uid)).length)

/-- `INSERT` under RLS: the `WITH CHECK (auth.uid() = user_id)` clause rejects
    (at the storage layer) any row whose `user_id` is not the caller. -/
def rlsInsert (userId : α → String) (uid : String) (row : α)
    (t : List α) : Option (List α) :=
  if userId row == uid then some (t ++ [row]) else none

lemma rlsSelect_owner (userId : α → String) (uid : String) (t : List α) :
    ∀ r ∈ rlsSelect userId uid t, userId r = uid ∧ r ∈ t := by
  intro r hr
  rw [rlsSelect, List.mem_filter] at hr
  exact ⟨by simpa using hr.2, hr.1⟩

lemma rlsSelect_complete (userId : α → String) (uid : String) (t : List α) :
    ∀ r ∈ t, userId r = uid → r ∈ rlsSelect userId uid t := by
  intro r hr h
  rw [rlsSelect, List.mem_filter]
  exact ⟨hr, by simpa using h⟩

lemma rlsSelect_foreign_empty (userId : α → String) (uid : String) (t : List α)
    (h : ∀ r ∈ t, userId r ≠ uid) : rlsSelect userId uid t = [] := by
  rw [rlsSelect, List.filter_eq_nil_iff]
  intro r hr
  simpa using h r hr

lemma rlsUpdateById_foreign (userId rowId : α → String) (uid rid : String)
    (f : α → α) (t : List α)
    (h : ∀ r ∈ t, rowId r = rid → userId r ≠ uid) :
    rlsUpdateById userId rowId uid rid f t = some (t, 0) := by
  have hc : ∀ r ∈ t, (rowId r == rid && userId r == uid) = false := by
    intro r hr
    by_cases h1 : rowId r = rid
    · simp [h1, h r hr h1]
    · simp [h1]
  have ht : t.filter (fun r => rowId r == rid && userId r == uid) = [] := by
    rw [List.filter_eq_nil_iff]
    intro r hr
    simp [hc r hr]
  have hm : t.map (fun r => if rowId r == rid && userId r == uid then f r else r) = t := by
    conv_rhs => rw [← List.map_id t]
    exact List.map_congr_left (fun r hr => by simp [hc r hr])
  simp only [rlsUpdateById, ht, List.all_nil, if_true, hm, List.length_nil]

lemma rlsDeleteById_foreign (userId rowId : α → String) (uid rid : String)
    (t : List α)
    (h : ∀ r ∈ t, rowId r = rid → userId r ≠ uid) :
    rlsDeleteById userId rowId uid rid t = (t, 0) := by
  have hc : ∀ r ∈ t, (rowId r == rid && userId r == uid) = false := by
    intro r hr
    by_cases h1 : rowId r = rid
    · simp [h1, h r hr h1]
    · simp [h1]
  have ht : t.filter (fun r => rowId r == rid && userId r == uid) = [] := by
    rw [List.filter_eq_nil_iff]
    intro r hr
    simp [hc r hr]
  have hk : t.filter (fun r => !(rowId r == rid && userId r == uid)) = t := by
    rw [List.filter_eq_self]
    intro r hr
    simp [hc r hr]
  simp only [rlsDeleteById, ht, hk, List.length_nil]

lemma rlsInsert_foreign (userId : α → String) (uid : String) (row : α)
    (t : List α) (h : userId row ≠ uid) :
    rlsInsert userId uid row t = none := by
  rw [rlsInsert]
  simp [h]

end RLS

/-! ## JavaScript number parsing

`Deals.handleSubmit` builds its payload with `parseFloat(formData.value) || 0`
and `parseInt(formData.probability) || 0`.  `parseInt` (base 10) and
`parseFloat` skip leading whitespace, accept an optional sign and read the
longest numeric prefix, yielding `NaN` (modelled as `none`) when no digit is
found; `x || 0` maps the falsy results `NaN`, `0` and `-0` to `0`, which on
the numeric side coincides with `Option.getD 0`. -/

/-- Drop leading whitespace characters. -/
def skipWs : List Char → List Char
  | [] => []
  | c :: cs => if c.isWhitespace then skipWs cs else c :: cs

/-- Consume an optional sign; returns `true` when negative. -/
def splitSign : List Char → Bool × List Char
  | [] => (false, [])
  | c :: cs =>
    if c = '-' then (true, cs)
    else if c = '+' then (false, cs)
    else (false, c :: cs)

/-- Longest prefix of decimal digits, as digit values, with the rest. -/
def takeDigits : List Char → List Nat × List Char
  | [] => ([], [])
  | c :: cs =>
    if c.isDigit then
      let p := takeDigits cs
      ((c.toNat - 48) :: p.1, p.2)
    else ([], c :: cs)

/-- Value of a digit string read in base 10. -/
def digitsToNat (ds : List Nat) : Nat :=
  ds.foldl (fun a d => 10 * a + d) 0

/-- JavaScript `parseInt(s)` in base 10; `none` is `NaN`. -/
def parseIntJS (s : String) : Option Int :=
  let p := splitSign (skipWs s.data)
  let d := takeDigits p.2
  if d.1.isEmpty then none
  else some (if p.1 then -(digitsToNat d.1 : Int) else (digitsToNat d.1 : Int))

/-- JavaScript `parseFloat(s)`: optional sign, integer digits, optional
    fractional digits, optional exponent (ignored when it has no digits, as in
    `parseFloat "3e"`); `none` is `NaN`. -/
def parseFloatJS (s : String) : Option ℚ :=
  let p := splitSign (skipWs s.data)
  let ip := takeDigits p.2
  let fp := match ip.2 with
    | '.' :: cs => takeDigits cs
    | l => ([], l)
  if ip.1.isEmpty ∧ fp.1.isEmpty then none
  else
    let mant : ℚ := (digitsToNat ip.1 : ℚ) + (digitsToNat fp.1 : ℚ) / (10 ^ fp.1.length : ℚ)
    let ex : Int := match fp.2 with
      | c :: cs =>
        if c = 'e' ∨ c = 'E' then
          let ep := splitSign cs
          let ed := takeDigits ep.2
          if ed.1.isEmpty then 0
          else if ep.1 then -(digitsToNat ed.1 : Int) else (digitsToNat ed.1 : Int)
        else 0
      | [] => 0
    some ((if p.1 then -mant else mant) * (10 : ℚ) ^ ex)

/-- JavaScript `s || null` on a string: the empty string is falsy. -/
def emptyToNull (s : String) : Option String :=
  if s = "" then none else some s

/-! ## Deals screen: form submission (`Deals.handleSubmit`) -/

/-- The `formData` state of the Deals modal: every field is a string. -/
structure DealFormState where
  title : String
  value : String
  stage : String
  probability : String
  expected_close_date : String
  company_id : String
  contact_id : String
  notes : String
deriving DecidableEq, Repr

/-- The `dealData` payload sent by `Deals.handleSubmit` (insert or update). -/
structure DealSubmitData where
  title : String
  value : ℚ
  stage : String
  probability : Int
  expected_close_date : Option String
  company_id : Option String
  contact_id : Option String
  notes : String
  updated_at : String
deriving DecidableEq, Repr

/-- `Deals.handleSubmit`: the `dealData` object built from the form state
    (`Dashboard.tsx` lines 336-349 of the Deals component). -/
def dealDataOf (fd : DealFormState) (nowIso : String) : DealSubmitData :=
  { title := fd.title
    value := (parseFloatJS fd.value).getD 0
    stage := fd.stage
    probability := (parseIntJS fd.probability).getD 0
    expected_close_date := emptyToNull fd.expected_close_date
    company_id := emptyToNull fd.company_id
    contact_id := emptyToNull fd.contact_id
    notes := fd.notes
    updated_at := nowIso }

/-! ## Tasks screen (`Tasks.tsx`) -/

/-- `isOverdue` (`Tasks.tsx` lines 139-142): a null due date is never overdue,
    otherwise overdue iff strictly earlier than the current instant.  Note the
    task's status is not consulted. -/
def isOverdue (dueDate : Option Int) (now : Int) : Bool :=
  match dueDate with
  | none => false
  | some d => decide (d < now)

/-- The due-date badge of the Tasks list (`Tasks.tsx` lines 213-223): rendered
    red with an alert icon exactly when the due date is present and
    `isOverdue` holds of it. -/
def overdueBadge (t : TaskRow) (now : Int) : Bool :=
  t.due_date.isSome && isOverdue t.due_date now

/-- `updateTaskStatus` (`Tasks.tsx` lines 93-105) as applied by the storage
    layer: the row matching the targeted id gets the new status and a fresh
    `updated_at`; nothing else changes. -/
def updateTaskStatusDB (taskId : String) (newStatus : TaskStatus)
    (nowIso : String) (t : List TaskRow) : List TaskRow :=
  t.map (fun r =>
    if r.id == taskId then { r with status := newStatus, updated_at := nowIso } else r)

/-- `updateDealStage` (Deals component, `Dashboard.tsx` lines 384-396) as
    applied by the storage layer: the row matching the targeted id gets the
    new stage and a fresh `updated_at`; nothing else changes. -/
def updateDealStageDB (dealId : String) (newStage : String)
    (nowIso : String) (t : List Deal) : List Deal :=
  t.map (fun r =>
    if r.id == dealId then { r with stage := newStage, updated_at := nowIso } else r)

/-! ### Quick-transition handlers as storage-operation traces

The two quick-transition handlers are also modelled by the ordered list of
storage operations their success path issues, so that "a direct update ...
then refetches" is a provable statement and not just a reading of the code.
The op alphabets deliberately contain the other operations each screen can
issue (insert, delete, refetch), so the theorems below are not vacuous. -/

/-- Operations the Tasks screen issues against the `tasks` table. -/
inductive TasksScreenOp where
  | selectAll
  | insertRow (row : TaskRow)
  | updateStatusOnly (taskId : String) (newStatus : TaskStatus) (nowIso : String)
  | deleteRow (taskId : String)
deriving DecidableEq, Repr

/-- Whether a Tasks-screen operation mutates the table (the refetch
    `selectAll` does not). -/
def TasksScreenOp.isMutation : TasksScreenOp → Bool
  | TasksScreenOp.selectAll => false
  | _ => true

/-- Storage effect of one Tasks-screen operation on the `tasks` table. -/
def applyTasksScreenOp (t : List TaskRow) : TasksScreenOp → List TaskRow
  | TasksScreenOp.selectAll => t
  | TasksScreenOp.insertRow r => t ++ [r]
  | TasksScreenOp.updateStatusOnly taskId st nowIso => updateTaskStatusDB taskId st nowIso t
  | TasksScreenOp.deleteRow taskId => t.filter (fun r => !(r.id == taskId))

/-- The success path of `updateTaskStatus` (`Tasks.tsx` lines 93-105) issues,
    in order: one update carrying only `status` and `updated_at`, filtered by
    `.eq('id', taskId)`, and then the refetch `fetchTasks()`. -/
def updateTaskStatusOps (taskId : String) (newStatus : TaskStatus)
    (nowIso : String) : List TasksScreenOp :=
  [TasksScreenOp.updateStatusOnly taskId newStatus nowIso, TasksScreenOp.selectAll]

/-- Operations the Deals screen issues against the `deals` table. -/
inductive DealsScreenOp where
  | selectAll
  | insertRow (row : Deal)
  | updateStageOnly (dealId : String) (newStage : String) (nowIso : String)
  | deleteRow (dealId : String)
deriving DecidableEq, Repr

/-- Whether a Deals-screen operation mutates the table (the refetch
    `selectAll` does not). -/
def DealsScreenOp.isMutation : DealsScreenOp → Bool
  | DealsScreenOp.selectAll => false
  | _ => true

/-- Storage effect of one Deals-screen operation on the `deals` table. -/
def applyDealsScreenOp (t : List Deal) : DealsScreenOp → List Deal
  | DealsScreenOp.selectAll => t
  | DealsScreenOp.insertRow r => t ++ [r]
  | DealsScreenOp.updateStageOnly dealId stg nowIso => updateDealStageDB dealId stg nowIso t
  | DealsScreenOp.deleteRow dealId => t.filter (fun r => !(r.id == dealId))

/-- The success path of `updateDealStage` (Deals component, `Dashboard.tsx`
    lines 384-396) issues, in order: one update carrying only `stage` and
    `updated_at`, filtered by `.eq('id', dealId)`, and then the refetch
    `fetchDeals()`. -/
def updateDealStageOps (dealId : String) (newStage : String)
    (nowIso : String) : List DealsScreenOp :=
  [DealsScreenOp.updateStageOnly dealId newStage nowIso, DealsScreenOp.selectAll]

/-! ## Dashboard aggregates (`Dashboard.tsx` `fetchDashboardData` and the
    Quick Stats panel) -/

/-- `deals.reduce((sum, deal) => sum + deal.value, 0)`. -/
def totalDealValue (deals : List Deal) : ℚ :=
  deals.foldl (fun sum d => sum + d.value) 0

/-- The active-task predicate `t.status === 'pending' || t.status === 'in_progress'`. -/
def isActiveTask (t : TaskRow) : Bool :=
  t.status == TaskStatus.pending || t.status == TaskStatus.in_progress

/-- `activeTasks` (`Dashboard.tsx` lines 53-55). -/
def activeTasksCount (tasks : List TaskRow) : Nat :=
  (tasks.filter isActiveTask).length

/-- `overdueTasks` (`Dashboard.tsx` lines 57-62):
    `(pending or in_progress) && t.due_date && new Date(t.due_date) < new Date()`. -/
def overdueTasksCount (tasks : List TaskRow) (now : Int) : Nat :=
  (tasks.filter (fun t => isActiveTask t && t.due_date.any (fun d => decide (d < now)))).length

/-- `stageCount` (`Dashboard.tsx` lines 64-67): the fold
    `acc[deal.stage] = (acc[deal.stage] || 0) + 1` over the fetched deals,
    the object modelled as a total function with missing keys read as 0. -/
def dealsByStage (deals : List Deal) : String → Nat :=
  deals.foldl (fun acc d => fun s => if s == d.stage then acc s + 1 else acc s)
    (fun _ => 0)

/-- Quick Stats, "Average Deal Value" (`Dashboard.tsx` lines 207-214):
    `totalDeals > 0 ? Math.round(totalDealValue / totalDeals) : 0`. -/
def averageDealValueDisplay (totalDeals : Nat) (totalValue : ℚ) : Int :=
  if 0 < totalDeals then round (totalValue / (totalDeals : ℚ)) else 0

/-- Quick Stats, "Contacts per Company" (`Dashboard.tsx` lines 215-222):
    `totalCompanies > 0 ? totalContacts / totalCompanies : 0` (the `toFixed(1)`
    formatting of the quotient is presentation only and not modelled). -/
def contactsPerCompanyDisplay (totalContacts totalCompanies : Nat) : ℚ :=
  if 0 < totalCompanies then (totalContacts : ℚ) / (totalCompanies : ℚ) else 0

/-- Quick Stats, "Task Completion Rate" (`Dashboard.tsx` lines 223-230):
    `activeTasks + overdueTasks > 0
       ? Math.round((activeTasks / (activeTasks + overdueTasks)) * 100) : 0`. -/
def taskCompletionRate (active overdue : Nat) : Int :=
  if 0 < active + overdue then
    round (((active : ℚ) / ((active : ℚ) + (overdue : ℚ))) * 100)
  else 0

/-! ## Activities screen (`Activities` component) as a step machine

The component's handlers are modelled as a transition function from screen
state and user event to the next state together with the list of mutations
issued against the `activities` table.  The mutation alphabet deliberately
contains update and delete so that the append-only theorem is not vacuous. -/

/-- The `formData` state of the Activities modal. -/
structure ActivityFormData where
  type : ActivityType
  subject : String
  description : String
  activity_date : String
deriving DecidableEq, Repr

/-- Possible mutations against the `activities` table. -/
inductive ActivitiesDBOp where
  | insertRow (fd : ActivityFormData)
  | updateRow (id : String) (fd : ActivityFormData)
  | deleteRow (id : String)
deriving DecidableEq, Repr

/-- The component state of the Activities screen. -/
structure ActivitiesScreenState where
  activities : List Activity
  isModalOpen : Bool
  formData : ActivityFormData
deriving Repr

/-- User/runtime events the Activities screen reacts to. -/
inductive ActivitiesEvent where
  | fetched (rows : List Activity)
  | openModal
  | cancelModal (nowLocal : String)
  | setFormData (fd : ActivityFormData)
  | submit (nowLocal : String)
deriving Repr

/-- `resetForm` of the Activities screen. -/
def resetActivityForm (nowLocal : String) : ActivityFormData :=
  { type := ActivityType.note
    subject := ""
    description := ""
    activity_date := nowLocal }

/-- The Activities screen transition function, translated handler by handler:
    `fetchActivities` stores the rows, opening/cancelling the modal and edits
    touch only local state, and `handleSubmit` (lines 50-62) issues exactly
    one insert of the current form data. -/
def activitiesStep (s : ActivitiesScreenState) (e : ActivitiesEvent) :
    ActivitiesScreenState × List ActivitiesDBOp :=
  match e with
  | ActivitiesEvent.fetched rows => ({ s with activities := rows }, [])
  | ActivitiesEvent.openModal => ({ s with isModalOpen := true }, [])
  | ActivitiesEvent.cancelModal nowLocal =>
    ({ s with isModalOpen := false, formData := resetActivityForm nowLocal }, [])
  | ActivitiesEvent.setFormData fd => ({ s with formData := fd }, [])
  | ActivitiesEvent.submit nowLocal =>
    ({ s with isModalOpen := false, formData := resetActivityForm nowLocal },
     [ActivitiesDBOp.insertRow s.formData])

/-! ## Deleting a company (`ON DELETE SET NULL` foreign keys,
    migration lines 188-246) -/

/-- The five persisted tables. -/
structure CRMState where
  companies : List Company
  contacts : List Contact
  deals : List Deal
  tasks : List TaskRow
  activities : List Activity
deriving Repr

/-- Deleting a `companies` row: the row is removed and, per the declared
    `ON DELETE SET NULL` foreign keys, every dependent `contacts`, `deals`,
    `tasks` and `activities` row referencing it has its `company_id` set to
    null; the dependent rows themselves are kept. -/
def deleteCompanyCascade (cid : String) (db : CRMState) : CRMState :=
  { companies := db.companies.filter (fun co => !(co.id == cid))
    contacts := db.contacts.map (fun c =>
      if c.company_id == some cid then { c with company_id := none } else c)
    deals := db.deals.map (fun d =>
      if d.company_id == some cid then { d with company_id := none } else d)
    tasks := db.tasks.map (fun t =>
      if t.company_id == some cid then { t with company_id := none } else t)
    activities := db.activities.map (fun a =>
      if a.company_id == some cid then { a with company_id := none } else a) }

/-! ## Claim theorems -/

/-- C1: for every authenticated user and each of the five tables (companies,
contacts, deals, tasks, activities), RLS select/update-by-id/delete-by-id
affect or return only rows whose `user_id` equals the caller; an attempt
against a row owned by a different user yields an empty result set / zero
affected rows rather than an authorization error, and an insert whose
`user_id` differs from the caller is rejected at the storage layer. -/
theorem rls_tenancy_isolation :
    (∀ (uid : String) (t : List Company), ∀ r ∈ rlsSelect Company.user_id uid t, r.user_id = uid) ∧
    (∀ (uid : String) (t : List Contact), ∀ r ∈ rlsSelect Contact.user_id uid t, r.user_id = uid) ∧
    (∀ (uid : String) (t : List Deal), ∀ r ∈ rlsSelect Deal.user_id uid t, r.user_id = uid) ∧
    (∀ (uid : String) (t : List TaskRow), ∀ r ∈ rlsSelect TaskRow.user_id uid t, r.user_id = uid) ∧
    (∀ (uid : String) (t : List Activity), ∀ r ∈ rlsSelect Activity.user_id uid t, r.user_id = uid) ∧
    (∀ {α : Type} (userId rowId : α → String) (uid rid : String) (f : α → α)
        (t : List α) (row : α),
      (∀ r ∈ rlsSelect userId uid t, userId r = uid ∧ r ∈ t) ∧
      (∀ r ∈ t, userId r = uid → r ∈ rlsSelect userId uid t) ∧
      ((∀ r ∈ t, userId r ≠ uid) → rlsSelect userId uid t = []) ∧
      ((∀ r ∈ t, rowId r = rid → userId r ≠ uid) →
        rlsUpdateById userId rowId uid rid f t = some (t, 0)) ∧
      ((∀ r ∈ t, rowId r = rid → userId r ≠ uid) →
        rlsDeleteById userId rowId uid rid t = (t, 0)) ∧
      (userId row ≠ uid → rlsInsert userId uid row t = none)) := by
  refine ⟨?_, ?_, ?_, ?_, ?_, ?_⟩
  · exact fun uid t r hr => (rlsSelect_owner Company.user_id uid t r hr).1
  · exact fun uid t r hr => (rlsSelect_owner Contact.user_id uid t r hr).1
  · exact fun uid t r hr => (rlsSelect_owner Deal.user_id uid t r hr).1
  · exact fun uid t r hr => (rlsSelect_owner TaskRow.user_id uid t r hr).1
  · exact fun uid t r hr => (rlsSelect_owner Activity.user_id uid t r hr).1
  · intro α userId rowId uid rid f t row
    exact ⟨rlsSelect_owner userId uid t,
      rlsSelect_complete userId uid t,
      rlsSelect_foreign_empty userId uid t,
      rlsUpdateById_foreign userId rowId uid rid f t,
      rlsDeleteById_foreign userId rowId uid rid t,
      rlsInsert_foreign userId uid row t⟩

/-- Witness for C1: with a table holding only a row of user A, user B's
select returns the empty list, B's update/delete by that row's id affect zero
rows and leave the table unchanged, and an insert of a row carrying A's
`user_id` issued by B is rejected. -/
theorem rls_tenancy_isolation_witness :
    rlsSelect Company.user_id "userB"
      [⟨"c1", "Acme", none, none, none, none, none, none, "userA", "t0", "t0"⟩] = [] ∧
    rlsUpdateById Company.user_id Company.id "userB" "c1" (fun c => { c with name := "X" })
      [⟨"c1", "Acme", none, none, none, none, none, none, "userA", "t0", "t0"⟩] =
      some ([⟨"c1", "Acme", none, none, none, none, none, none, "userA", "t0", "t0"⟩], 0) ∧
    rlsDeleteById Company.user_id Company.id "userB" "c1"
      [⟨"c1", "Acme", none, none, none, none, none, none, "userA", "t0", "t0"⟩] =
      ([⟨"c1", "Acme", none, none, none, none, none, none, "userA", "t0", "t0"⟩], 0) ∧
    rlsInsert Company.user_id "userB"
      ⟨"c2", "Evil", none, none, none, none, none, none, "userA", "t0", "t0"⟩ [] = none := by
  refine ⟨?_, ?_, ?_, ?_⟩
  · exact (rls_tenancy_isolation.2.2.2.2.2 Company.user_id Company.id "userB" "c1"
      (fun c => { c with name := "X" }) _
      ⟨"c2", "Evil", none, none, none, none, none, none, "userA", "t0", "t0"⟩).2.2.1
      (by decide)
  · exact (rls_tenancy_isolation.2.2.2.2.2 Company.user_id Company.id "userB" "c1"
      (fun c => { c with name := "X" }) _
      ⟨"c2", "Evil", none, none, none, none, none, none, "userA", "t0", "t0"⟩).2.2.2.1
      (by decide)
  · exact (rls_tenancy_isolation.2.2.2.2.2 Company.user_id Company.id "userB" "c1"
      (fun c => { c with name := "X" }) _
      ⟨"c2", "Evil", none, none, none, none, none, none, "userA", "t0", "t0"⟩).2.2.2.2.1
      (by decide)
  · exact (rls_tenancy_isolation.2.2.2.2.2 Company.user_id Company.id "userB" "c1"
      (fun c => { c with name := "X" }) []
      ⟨"c2", "Evil", none, none, none, none, none, none, "userA", "t0", "t0"⟩).2.2.2.2.2
      (by decide)

/-- C2 counterexample: a task with `status = completed` and a past due date
(due instant 0, current instant 1) is nonetheless rendered with the overdue
badge, refuting "a Task with status = completed is never flagged overdue". -/
theorem overdue_badge_completed_counterexample :
    (⟨"t1", "Old task", none, some 0, TaskPriority.medium, TaskStatus.completed,
        none, none, none, "userA", "t0", "t0"⟩ : TaskRow).status = TaskStatus.completed ∧
    overdueBadge
      ⟨"t1", "Old task", none, some 0, TaskPriority.medium, TaskStatus.completed,
        none, none, none, "userA", "t0", "t0"⟩ 1 = true :=
  ⟨rfl, rfl⟩

/-- C2 (amended): the overdue badge of the Tasks screen holds iff the task's
due date is non-null and strictly earlier than the current instant, evaluated
at render time, independently of the task's status; in particular a pending
task with a past due date is flagged, and so is a completed one. -/
theorem overdue_badge_iff (t : TaskRow) (now : Int) :
    (overdueBadge t now = true ↔ ∃ d, t.due_date = some d ∧ d < now) ∧
    (∀ st : TaskStatus, overdueBadge { t with status := st } now = overdueBadge t now) := by
  constructor
  · cases h : t.due_date with
    | none => simp [overdueBadge, isOverdue, h]
    | some d => simp [overdueBadge, isOverdue, h]
  · intro st
    rfl

/-- Witness for C2 (amended): a pending task due at instant 3 carries the
overdue badge at instant 5. -/
theorem overdue_badge_iff_witness :
    overdueBadge
      ⟨"t2", "Follow up", none, some 3, TaskPriority.high, TaskStatus.pending,
        none, none, none, "userA", "t0", "t0"⟩ 5 = true :=
  (overdue_badge_iff
    ⟨"t2", "Follow up", none, some 3, TaskPriority.high, TaskStatus.pending,
      none, none, none, "userA", "t0", "t0"⟩ 5).1.mpr ⟨3, rfl, by decide⟩

/-- C3 counterexample: submitting the deal form with probability "150" stores
probability 150, refuting "the stored probability is clamped to [0, 100]":
neither `Deals.handleSubmit` (`parseInt(...) || 0`) nor the `deals` table
definition clamps the value. -/
theorem deal_probability_not_clamped_counterexample :
    100 < (dealDataOf
      (⟨"Big deal", "1000", "lead", "150", "", "", "", ""⟩ : DealFormState)
      "2026-01-01T00:00:00.000Z").probability := by
  simp only [dealDataOf]
  decide

/-- C3 (amended): on every deal form submission the stored probability is the
base-10 integer parse of the submitted string with fallback 0 — an empty
submission stores the default 0 and an unparsable one stores 0 — but it is not
clamped to [0, 100] (an out-of-range submission such as "150" is stored
unchanged; the form relies only on the input's min/max attributes); the stored
value is the float parse of the value field with fallback 0, so it is 0
whenever that field does not parse as a number. -/
theorem deal_submit_parse_defaults (fd : DealFormState) (nowIso : String) :
    (dealDataOf fd nowIso).probability = (parseIntJS fd.probability).getD 0 ∧
    (fd.probability = "" → (dealDataOf fd nowIso).probability = 0) ∧
    (dealDataOf fd nowIso).value = (parseFloatJS fd.value).getD 0 ∧
    (parseFloatJS fd.value = none → (dealDataOf fd nowIso).value = 0) ∧
    (fd.value = "" → (dealDataOf fd nowIso).value = 0) := by
  refine ⟨rfl, ?_, rfl, ?_, ?_⟩
  · intro h
    simp only [dealDataOf, h]
    decide
  · intro h
    simp only [dealDataOf, h, Option.getD_none]
  · intro h
    simp only [dealDataOf, h]
    decide

/-- Witness for C3 (amended): the all-empty form submission stores
probability 0 and value 0. -/
theorem deal_submit_parse_defaults_witness :
    (dealDataOf (⟨"T", "", "lead", "", "", "", "", ""⟩ : DealFormState) "t").probability = 0 ∧
    (dealDataOf (⟨"T", "", "lead", "", "", "", "", ""⟩ : DealFormState) "t").value = 0 :=
  ⟨(deal_submit_parse_defaults (⟨"T", "", "lead", "", "", "", "", ""⟩ : DealFormState) "t").2.1 rfl,
   (deal_submit_parse_defaults (⟨"T", "", "lead", "", "", "", "", ""⟩ : DealFormState) "t").2.2.2.2 rfl⟩

lemma foldl_add_value (deals : List Deal) :
    ∀ a : ℚ, deals.foldl (fun sum d => sum + d.value) a = a + (deals.map Deal.value).sum := by
  induction deals with
  | nil => intro a; simp
  | cons d l ih => intro a; simp [List.foldl_cons, ih, add_assoc]

lemma dealsByStage_foldl (deals : List Deal) :
    ∀ (acc : String → Nat) (s : String),
      (deals.foldl (fun acc d => fun s2 => if s2 == d.stage then acc s2 + 1 else acc s2) acc) s
        = acc s + (deals.filter (fun d => d.stage == s)).length := by
  induction deals with
  | nil => intro acc s; simp
  | cons d l ih =>
    intro acc s
    simp only [List.foldl_cons]
    rw [ih]
    by_cases h : s = d.stage
    · simp only [List.filter_cons, h, beq_self_eq_true, if_true, List.length_cons]
      omega
    · simp [List.filter_cons, h, Ne.symm h]

/-- C4: for every fetched deal list the dashboard's total deal value equals
the sum of `value` over the fetched deals and its per-stage counts map each
stage to the number of fetched deals in that stage; in particular two deals of
value 1000 at stage "lead" and value 2000 at stage "qualified" yield total
3000 and counts lead 1 / qualified 1. -/
theorem dashboard_deal_aggregates :
    (∀ deals : List Deal,
      totalDealValue deals = (deals.map Deal.value).sum ∧
      ∀ s : String, dealsByStage deals s = (deals.filter (fun d => d.stage == s)).length) ∧
    totalDealValue
      [⟨"d1", "First", 1000, "lead", 0, none, none, none, none, "userA", "t0", "t0"⟩,
       ⟨"d2", "Second", 2000, "qualified", 0, none, none, none, none, "userA", "t0", "t0"⟩] = 3000 ∧
    dealsByStage
      [⟨"d1", "First", 1000, "lead", 0, none, none, none, none, "userA", "t0", "t0"⟩,
       ⟨"d2", "Second", 2000, "qualified", 0, none, none, none, none, "userA", "t0", "t0"⟩]
      "lead" = 1 ∧
    dealsByStage
      [⟨"d1", "First", 1000, "lead", 0, none, none, none, none, "userA", "t0", "t0"⟩,
       ⟨"d2", "Second", 2000, "qualified", 0, none, none, none, none, "userA", "t0", "t0"⟩]
      "qualified" = 1 := by
  refine ⟨fun deals => ⟨?_, ?_⟩, ?_, ?_, ?_⟩
  · rw [totalDealValue, foldl_add_value]
    simp
  · intro s
    rw [dealsByStage, dealsByStage_foldl]
    omega
  · simp [totalDealValue]
    norm_num
  · decide
  · decide

lemma length_filter_and_le {α : Type} (p q : α → Bool) (l : List α) :
    (l.filter (fun a => p a && q a)).length ≤ (l.filter p).length := by
  induction l with
  | nil => simp
  | cons a l ih =>
    cases hp : p a <;> cases hq : q a <;>
      simp [List.filter_cons, hp, hq] <;> omega

/-- C5: the dashboard's active task count is the number of fetched tasks with
status pending or in_progress, its overdue task count counts the subset of
those active tasks whose due date is non-null and past (so overdue ≤ active
always), and when the denominator is positive the displayed task completion
rate is round(100 · active / (active + overdue)). -/
theorem dashboard_task_stats (tasks : List TaskRow) (now : Int) :
    activeTasksCount tasks = tasks.countP isActiveTask ∧
    overdueTasksCount tasks now =
      ((tasks.filter isActiveTask).filter
        (fun t => t.due_date.any (fun d => decide (d < now)))).length ∧
    overdueTasksCount tasks now ≤ activeTasksCount tasks ∧
    (0 < activeTasksCount tasks + overdueTasksCount tasks now →
      taskCompletionRate (activeTasksCount tasks) (overdueTasksCount tasks now) =
        round ((100 * (activeTasksCount tasks : ℚ)) /
          ((activeTasksCount tasks : ℚ) + (overdueTasksCount tasks now : ℚ)))) := by
  refine ⟨?_, ?_, ?_, ?_⟩
  · rw [activeTasksCount, List.countP_eq_length_filter]
  · rw [overdueTasksCount, List.filter_filter]
    congr 1
    apply List.filter_congr
    intro t _
    exact Bool.and_comm _ _
  · rw [overdueTasksCount, activeTasksCount]
    exact length_filter_and_le _ _ _
  · intro h
    rw [taskCompletionRate, if_pos ?_]
    · congr 1
      ring
    · omega

/-- Witness for C5: a single pending task due at instant 1, evaluated at
instant 5, has one active and one overdue task, and the theorem's rate
formula applies since the denominator is positive. -/
theorem dashboard_task_stats_witness :
    taskCompletionRate
      (activeTasksCount
        [⟨"t9", "W", none, some 1, TaskPriority.low, TaskStatus.pending,
          none, none, none, "userA", "t0", "t0"⟩])
      (overdueTasksCount
        [⟨"t9", "W", none, some 1, TaskPriority.low, TaskStatus.pending,
          none, none, none, "userA", "t0", "t0"⟩] 5) =
    round ((100 * ((activeTasksCount
        [⟨"t9", "W", none, some 1, TaskPriority.low, TaskStatus.pending,
          none, none, none, "userA", "t0", "t0"⟩]) : ℚ)) /
      (((activeTasksCount
        [⟨"t9", "W", none, some 1, TaskPriority.low, TaskStatus.pending,
          none, none, none, "userA", "t0", "t0"⟩]) : ℚ) +
       ((overdueTasksCount
        [⟨"t9", "W", none, some 1, TaskPriority.low, TaskStatus.pending,
          none, none, none, "userA", "t0", "t0"⟩] 5) : ℚ))) :=
  (dashboard_task_stats
    [⟨"t9", "W", none, some 1, TaskPriority.low, TaskStatus.pending,
      none, none, none, "userA", "t0", "t0"⟩] 5).2.2.2 (by decide)

/-- C6: each quick transition (Task status, Deal stage) issues, on its success
path, exactly one mutation — a direct update targeting the row id and
carrying only the status (resp. stage) field and `updated_at` — followed by a
refetch as the trace's final operation; the trace's total storage effect is
that single update, which changes only the targeted row's status/stage and
`updated_at`, leaves every other field of that row and every other row
unchanged, and preserves the row count. -/
theorem quick_transition_frame :
    (∀ (taskId : String) (st : TaskStatus) (nowIso : String) (ts : List TaskRow),
      (updateTaskStatusOps taskId st nowIso).filter TasksScreenOp.isMutation =
        [TasksScreenOp.updateStatusOnly taskId st nowIso] ∧
      (updateTaskStatusOps taskId st nowIso).getLast? = some TasksScreenOp.selectAll ∧
      (updateTaskStatusOps taskId st nowIso).foldl applyTasksScreenOp ts =
        updateTaskStatusDB taskId st nowIso ts ∧
      (updateTaskStatusDB taskId st nowIso ts).length = ts.length ∧
      List.Forall₂ (fun r r2 : TaskRow =>
        (r.id ≠ taskId → r2 = r) ∧
        (r.id = taskId → r2.status = st ∧ r2.updated_at = nowIso ∧
          r2.id = r.id ∧ r2.title = r.title ∧ r2.description = r.description ∧
          r2.due_date = r.due_date ∧ r2.priority = r.priority ∧
          r2.contact_id = r.contact_id ∧ r2.company_id = r.company_id ∧
          r2.deal_id = r.deal_id ∧ r2.user_id = r.user_id ∧
          r2.created_at = r.created_at))
        ts (updateTaskStatusDB taskId st nowIso ts)) ∧
    (∀ (dealId stg nowIso : String) (ds : List Deal),
      (updateDealStageOps dealId stg nowIso).filter DealsScreenOp.isMutation =
        [DealsScreenOp.updateStageOnly dealId stg nowIso] ∧
      (updateDealStageOps dealId stg nowIso).getLast? = some DealsScreenOp.selectAll ∧
      (updateDealStageOps dealId stg nowIso).foldl applyDealsScreenOp ds =
        updateDealStageDB dealId stg nowIso ds ∧
      (updateDealStageDB dealId stg nowIso ds).length = ds.length ∧
      List.Forall₂ (fun r r2 : Deal =>
        (r.id ≠ dealId → r2 = r) ∧
        (r.id = dealId → r2.stage = stg ∧ r2.updated_at = nowIso ∧
          r2.id = r.id ∧ r2.title = r.title ∧ r2.value = r.value ∧
          r2.probability = r.probability ∧
          r2.expected_close_date = r.expected_close_date ∧
          r2.company_id = r.company_id ∧ r2.contact_id = r.contact_id ∧
          r2.notes = r.notes ∧ r2.user_id = r.user_id ∧
          r2.created_at = r.created_at))
        ds (updateDealStageDB dealId stg nowIso ds)) := by
  constructor
  · intro taskId st nowIso ts
    refine ⟨rfl, rfl, rfl, by simp [updateTaskStatusDB], ?_⟩
    rw [updateTaskStatusDB, List.forall₂_map_right_iff, List.forall₂_same]
    intro x _
    by_cases h : x.id = taskId
    · exact ⟨fun hn => absurd h hn, fun _ => by simp [h]⟩
    · exact ⟨fun _ => by simp [h], fun he => absurd he h⟩
  · intro dealId stg nowIso ds
    refine ⟨rfl, rfl, rfl, by simp [updateDealStageDB], ?_⟩
    rw [updateDealStageDB, List.forall₂_map_right_iff, List.forall₂_same]
    intro x _
    by_cases h : x.id = dealId
    · exact ⟨fun hn => absurd h hn, fun _ => by simp [h]⟩
    · exact ⟨fun _ => by simp [h], fun he => absurd he h⟩

/-- Witness for C6: on a concrete two-task table with only the first row
targeted, the handler's trace ends in the refetch, its total effect is the
single status update, and the length is preserved. -/
theorem quick_transition_frame_witness :
    (updateTaskStatusOps "a" TaskStatus.completed "t1").getLast? =
      some TasksScreenOp.selectAll ∧
    (updateTaskStatusOps "a" TaskStatus.completed "t1").foldl applyTasksScreenOp
      [⟨"a", "A", none, none, TaskPriority.low, TaskStatus.pending,
        none, none, none, "userA", "t0", "t0"⟩,
       ⟨"b", "B", none, none, TaskPriority.low, TaskStatus.pending,
        none, none, none, "userA", "t0", "t0"⟩] =
    updateTaskStatusDB "a" TaskStatus.completed "t1"
      [⟨"a", "A", none, none, TaskPriority.low, TaskStatus.pending,
        none, none, none, "userA", "t0", "t0"⟩,
       ⟨"b", "B", none, none, TaskPriority.low, TaskStatus.pending,
        none, none, none, "userA", "t0", "t0"⟩] ∧
    (updateTaskStatusDB "a" TaskStatus.completed "t1"
      [⟨"a", "A", none, none, TaskPriority.low, TaskStatus.pending,
        none, none, none, "userA", "t0", "t0"⟩,
       ⟨"b", "B", none, none, TaskPriority.low, TaskStatus.pending,
        none, none, none, "userA", "t0", "t0"⟩]).length =
    ([⟨"a", "A", none, none, TaskPriority.low, TaskStatus.pending,
        none, none, none, "userA", "t0", "t0"⟩,
      ⟨"b", "B", none, none, TaskPriority.low, TaskStatus.pending,
        none, none, none, "userA", "t0", "t0"⟩] : List TaskRow).length :=
  ⟨(quick_transition_frame.1 "a" TaskStatus.completed "t1"
      [⟨"a", "A", none, none, TaskPriority.low, TaskStatus.pending,
        none, none, none, "userA", "t0", "t0"⟩,
       ⟨"b", "B", none, none, TaskPriority.low, TaskStatus.pending,
        none, none, none, "userA", "t0", "t0"⟩]).2.1,
   (quick_transition_frame.1 "a" TaskStatus.completed "t1"
      [⟨"a", "A", none, none, TaskPriority.low, TaskStatus.pending,
        none, none, none, "userA", "t0", "t0"⟩,
       ⟨"b", "B", none, none, TaskPriority.low, TaskStatus.pending,
        none, none, none, "userA", "t0", "t0"⟩]).2.2.1,
   (quick_transition_frame.1 "a" TaskStatus.completed "t1"
      [⟨"a", "A", none, none, TaskPriority.low, TaskStatus.pending,
        none, none, none, "userA", "t0", "t0"⟩,
       ⟨"b", "B", none, none, TaskPriority.low, TaskStatus.pending,
        none, none, none, "userA", "t0", "t0"⟩]).2.2.2.1⟩

/-- C7: issuing the same status/stage transition twice leaves the entity in
the same terminal state as issuing it once (the second write absorbs the
first), and no transition changes the table's row count, so no duplicate row
is ever created; with equal timestamps the two-step and one-step results are
literally identical. -/
theorem quick_transition_idempotent :
    (∀ (taskId : String) (st : TaskStatus) (now1 now2 : String) (ts : List TaskRow),
      updateTaskStatusDB taskId st now2 (updateTaskStatusDB taskId st now1 ts) =
        updateTaskStatusDB taskId st now2 ts ∧
      (updateTaskStatusDB taskId st now1 ts).length = ts.length) ∧
    (∀ (dealId stg now1 now2 : String) (ds : List Deal),
      updateDealStageDB dealId stg now2 (updateDealStageDB dealId stg now1 ds) =
        updateDealStageDB dealId stg now2 ds ∧
      (updateDealStageDB dealId stg now1 ds).length = ds.length) := by
  constructor
  · intro taskId st now1 now2 ts
    refine ⟨?_, by simp [updateTaskStatusDB]⟩
    simp only [updateTaskStatusDB, List.map_map]
    apply List.map_congr_left
    intro x _
    by_cases h : x.id = taskId
    · simp [Function.comp, h]
    · simp [Function.comp, h]
  · intro dealId stg now1 now2 ds
    refine ⟨?_, by simp [updateDealStageDB]⟩
    simp only [updateDealStageDB, List.map_map]
    apply List.map_congr_left
    intro x _
    by_cases h : x.id = dealId
    · simp [Function.comp, h]
    · simp [Function.comp, h]

/-- C8: deleting a company removes no dependent row (contact/deal/task/
activity counts are preserved), leaves no row referencing the deleted
company, removes the company itself, and maps every dependent contact to the
same row with its company reference nulled (rows that did not reference the
company are untouched). -/
theorem delete_company_nulls_dependents (cid : String) (db : CRMState) :
    ((deleteCompanyCascade cid db).contacts.length = db.contacts.length ∧
     (deleteCompanyCascade cid db).deals.length = db.deals.length ∧
     (deleteCompanyCascade cid db).tasks.length = db.tasks.length ∧
     (deleteCompanyCascade cid db).activities.length = db.activities.length) ∧
    (∀ co ∈ (deleteCompanyCascade cid db).companies, co.id ≠ cid) ∧
    (∀ c ∈ (deleteCompanyCascade cid db).contacts, c.company_id ≠ some cid) ∧
    (∀ d ∈ (deleteCompanyCascade cid db).deals, d.company_id ≠ some cid) ∧
    (∀ t ∈ (deleteCompanyCascade cid db).tasks, t.company_id ≠ some cid) ∧
    (∀ a ∈ (deleteCompanyCascade cid db).activities, a.company_id ≠ some cid) ∧
    (∀ c ∈ db.contacts,
      (c.company_id ≠ some cid → c ∈ (deleteCompanyCascade cid db).contacts) ∧
      (c.company_id = some cid →
        { c with company_id := none } ∈ (deleteCompanyCascade cid db).contacts)) := by
  refine ⟨⟨by simp [deleteCompanyCascade], by simp [deleteCompanyCascade],
    by simp [deleteCompanyCascade], by simp [deleteCompanyCascade]⟩, ?_, ?_, ?_, ?_, ?_, ?_⟩
  · intro co hco
    simp only [deleteCompanyCascade, List.mem_filter, Bool.not_eq_eq_eq_not,
      Bool.not_true, beq_eq_false_iff_ne, ne_eq] at hco
    exact hco.2
  · intro c2 hc2
    simp only [deleteCompanyCascade, List.mem_map] at hc2
    obtain ⟨c, _, he⟩ := hc2
    subst he
    by_cases h : c.company_id = some cid
    · simp [h]
    · simp [h]
  · intro d2 hd2
    simp only [deleteCompanyCascade, List.mem_map] at hd2
    obtain ⟨d, _, he⟩ := hd2
    subst he
    by_cases h : d.company_id = some cid
    · simp [h]
    · simp [h]
  · intro t2 ht2
    simp only [deleteCompanyCascade, List.mem_map] at ht2
    obtain ⟨t, _, he⟩ := ht2
    subst he
    by_cases h : t.company_id = some cid
    · simp [h]
    · simp [h]
  · intro a2 ha2
    simp only [deleteCompanyCascade, List.mem_map] at ha2
    obtain ⟨a, _, he⟩ := ha2
    subst he
    by_cases h : a.company_id = some cid
    · simp [h]
    · simp [h]
  · intro c hc
    constructor
    · intro h
      simp only [deleteCompanyCascade, List.mem_map]
      exact ⟨c, hc, by simp [h]⟩
    · intro h
      simp only [deleteCompanyCascade, List.mem_map]
      exact ⟨c, hc, by simp [h]⟩

/-- Witness for C8 (the Acme / Jane Doe scenario): after deleting company
"Acme" referenced by contact "Jane Doe", Jane's row still exists with a null
company reference and the contacts table kept its single row. -/
theorem delete_company_nulls_dependents_witness :
    ({ (⟨"ct1", "Jane", "Doe", none, none, none, some "c-acme", none,
          "userA", "t0", "t0"⟩ : Contact) with company_id := none } ∈
      (deleteCompanyCascade "c-acme"
        ⟨[⟨"c-acme", "Acme", none, none, none, none, none, none, "userA", "t0", "t0"⟩],
         [⟨"ct1", "Jane", "Doe", none, none, none, some "c-acme", none, "userA", "t0", "t0"⟩],
         [], [], []⟩).contacts) ∧
    (deleteCompanyCascade "c-acme"
      ⟨[⟨"c-acme", "Acme", none, none, none, none, none, none, "userA", "t0", "t0"⟩],
       [⟨"ct1", "Jane", "Doe", none, none, none, some "c-acme", none, "userA", "t0", "t0"⟩],
       [], [], []⟩).contacts.length =
    (⟨[⟨"c-acme", "Acme", none, none, none, none, none, none, "userA", "t0", "t0"⟩],
       [⟨"ct1", "Jane", "Doe", none, none, none, some "c-acme", none, "userA", "t0", "t0"⟩],
       [], [], []⟩ : CRMState).contacts.length :=
  ⟨((delete_company_nulls_dependents "c-acme"
      ⟨[⟨"c-acme", "Acme", none, none, none, none, none, none, "userA", "t0", "t0"⟩],
       [⟨"ct1", "Jane", "Doe", none, none, none, some "c-acme", none, "userA", "t0", "t0"⟩],
       [], [], []⟩).2.2.2.2.2.2
      ⟨"ct1", "Jane", "Doe", none, none, none, some "c-acme", none, "userA", "t0", "t0"⟩
      (by simp)).2 rfl,
   (delete_company_nulls_dependents "c-acme"
      ⟨[⟨"c-acme", "Acme", none, none, none, none, none, none, "userA", "t0", "t0"⟩],
       [⟨"ct1", "Jane", "Doe", none, none, none, some "c-acme", none, "userA", "t0", "t0"⟩],
       [], [], []⟩).1.1⟩

/-- C9: the Activities screen is append-only — from any screen state, any
event's transition issues only insert mutations against the `activities`
table; no update (or delete) of an existing activity is ever issued. -/
theorem activities_append_only (s : ActivitiesScreenState) (e : ActivitiesEvent) :
    ∀ op ∈ (activitiesStep s e).2, ∃ fd, op = ActivitiesDBOp.insertRow fd := by
  intro op hop
  cases e with
  | fetched rows => simp [activitiesStep] at hop
  | openModal => simp [activitiesStep] at hop
  | cancelModal n => simp [activitiesStep] at hop
  | setFormData fd => simp [activitiesStep] at hop
  | submit n =>
    simp only [activitiesStep, List.mem_singleton] at hop
    exact ⟨s.formData, hop⟩

/-- Witness for C9: submitting the modal from a concrete state issues an
insert (of the current form data) and nothing else. -/
theorem activities_append_only_witness :
    ∃ fd, ActivitiesDBOp.insertRow
      (⟨ActivityType.note, "Call Jane", "", "2026-10-11T10:00"⟩ : ActivityFormData) =
      ActivitiesDBOp.insertRow fd :=
  activities_append_only
    ⟨[], true, ⟨ActivityType.note, "Call Jane", "", "2026-10-11T10:00"⟩⟩
    (ActivitiesEvent.submit "2026-10-11T10:05")
    (ActivitiesDBOp.insertRow
      (⟨ActivityType.note, "Call Jane", "", "2026-10-11T10:00"⟩ : ActivityFormData))
    (by simp [activitiesStep])

/-- C10: the dashboard's derived ratios are total — with an empty deal list
the average deal value displays 0, with zero companies the contacts-per-
company ratio displays 0, and with no active and no overdue tasks the task
completion rate displays 0; each definition divides only under a positive
denominator guard. -/
theorem dashboard_ratios_total :
    averageDealValueDisplay (List.length ([] : List Deal)) (totalDealValue []) = 0 ∧
    (∀ v : ℚ, averageDealValueDisplay 0 v = 0) ∧
    (∀ contacts : Nat, contactsPerCompanyDisplay contacts 0 = 0) ∧
    taskCompletionRate 0 0 = 0 := by
  refine ⟨rfl, fun v => rfl, fun contacts => rfl, rfl⟩

end CRM
